import Mathlib

set_option linter.unusedVariables false

/-!
Verification of the VynceAI backend prompt-composition and model-invocation
pipeline (`src/server/app/services/llm_client.py`,
`src/server/app/services/ai_service.py`, `src/server/app/api/v1/routes_ai.py`,
`src/server/app/core/config.py`).

The Python code is shallowly embedded: strings are Lean `String`s, Python
`None`-able values are `Option`, Python truthiness of strings/lists/numbers is
made explicit, and every external effect of the Gemini SDK is captured by an
oracle field in an `Env` record (`providerResponse` gives, for each model name
and prompt, either the raw text the provider produced or the message of the
exception it raised).  Each embedded function returns, besides the value the
Python function returns, a record of the observable interaction it performed
with the provider, so that claims about "what was passed to the provider" are
statable.
-/

namespace Vynce

/-- Python truthiness of an optional string: `None` and `""` are falsy. -/
def strTruthy : Option String → Bool
  | none => false
  | some s => !(s = "")

/-- Python `x or d` for an optional string `x`: falsy (`None`/`""`) falls back to `d`. -/
def pyOrStr (o : Option String) (d : String) : String :=
  match o with
  | none => d
  | some s => if s = "" then d else s

/-- Python `x or d` for an optional float `x` (modelled as a rational):
`None` and `0.0` are falsy and fall back to `d`. -/
def pyOrQ (o : Option ℚ) (d : ℚ) : ℚ :=
  match o with
  | none => d
  | some v => if v = 0 then d else v

/-- Python `x or d` for an optional int `x`: `None` and `0` are falsy. -/
def pyOrZ (o : Option ℤ) (d : ℤ) : ℤ :=
  match o with
  | none => d
  | some v => if v = 0 then d else v

/-- Python string slicing `s[:n]`: the first `n` characters. -/
def pyTake (n : Nat) (s : String) : String := ⟨s.data.take n⟩

/-- Whitespace test used by Python `str.strip()` / `str.split()`. -/
def wsChar (c : Char) : Bool := c.isWhitespace

/-- Python `str.strip()`: drop whitespace from both ends. -/
def pyStrip (s : String) : String :=
  ⟨((s.data.dropWhile wsChar).reverse.dropWhile wsChar).reverse⟩

/-- Python `str.split()` with no argument: split on whitespace runs, no empty tokens. -/
def pySplitWs (s : String) : List String :=
  (s.split wsChar).filter (fun t => t ≠ "")

/-- `a` starts with `b` (Python `str.startswith`). -/
def strStartsWith (a b : String) : Bool := b.data.isPrefixOf a.data

/-- `pat` occurs in `s` as a contiguous substring. -/
def StrContains (s pat : String) : Prop := pat.data <:+: s.data

/-- Python `sep.join(parts)`. -/
def pyJoin (sep : String) : List String → String
  | [] => ""
  | [a] => a
  | a :: b :: rest => a ++ sep ++ pyJoin sep (b :: rest)

-- Configuration values from `app/core/config.py` (`Settings`).
namespace settings

/-- `GEMINI_MODEL: str = "gemini-2.5-flash"`. -/
def GEMINI_MODEL : String := "gemini-2.5-flash"

/-- `TEMPERATURE: float = 0.7`. -/
def TEMPERATURE : ℚ := 7/10

/-- `MAX_TOKENS: int = 1000`. -/
def MAX_TOKENS : ℤ := 1000

end settings

/-- The ambient state the Model Client runs against: whether the Gemini SDK
imported (`GEMINI_AVAILABLE`), the configured credential
(`settings.GEMINI_API_KEY`), and an oracle for the external provider:
`providerResponse modelName prompt` is `.ok raw` when
`genai.GenerativeModel(modelName).generate_content(prompt)` returns a response
whose `.text` is `raw`, and `.error e` when that call (or the `.text` access)
raises an exception whose string form is `e`. -/
structure Env where
  geminiAvailable : Bool
  geminiApiKey : Option String
  providerResponse : String → String → Except String String

/-- The provider SDK is importable and a truthy credential is configured. -/
def envConfigured (env : Env) : Bool :=
  env.geminiAvailable && strTruthy env.geminiApiKey

namespace LLMClient

/-- The context dict accepted by `LLMClient._build_prompt` (snake_case keys). -/
structure LCContext where
  url : Option String
  title : Option String
  selected_text : Option String
  page_content : Option String

/-- The system-context block of `LLMClient._build_prompt` (lines 90-101). -/
def SYSTEM_CONTEXT : String :=
  "You are VynceAI, an intelligent AI-powered browser assistant.\n\nABOUT VYNCEAI:\n- VynceAI is a Chrome browser extension that brings AI directly into your browser\n- It helps with web tasks, content understanding, automation, and smart browsing\n- VynceAI makes web browsing more productive with AI-powered assistance\n\nYOUR ROLE:\n- Answer questions about web pages and content\n- Help users understand what they\x27re reading\n- Provide smart, concise, web-focused responses\n- Always identify as \"VynceAI\" when asked your name"

/-- `LLMClient._build_prompt` (llm_client.py lines 82-118): with no context the
prompt is returned unchanged, otherwise a persona block, the truthy context
fields and the question are joined with newlines. -/
def build_prompt (prompt : String) (context : Option LCContext) : String :=
  match context with
  | none => prompt
  | some c =>
    let parts := [SYSTEM_CONTEXT]
    let parts := parts ++
      (if strTruthy c.url then ["\nCurrent page URL: " ++ c.url.getD ""] else [])
    let parts := parts ++
      (if strTruthy c.title then ["Page title: " ++ c.title.getD ""] else [])
    let parts := parts ++
      (if strTruthy c.selected_text then ["Selected text: " ++ c.selected_text.getD ""] else [])
    let parts := parts ++
      (if strTruthy c.page_content then
        ["Page content: " ++ pyTake 500 (c.page_content.getD "") ++ "..."] else [])
    let parts := parts ++ ["\nUser question: " ++ prompt, "\nVynceAI response:"]
    pyJoin "\n" parts

/-- The character list of the string `"models/"`. -/
def modelsPat : List Char := "models/".data

/-- Python `str.replace("models/", "")` specialised to its call site: scan left
to right, deleting every non-overlapping occurrence of `models/`. -/
def stripModelsAux : List Char → List Char
  | 'm' :: 'o' :: 'd' :: 'e' :: 'l' :: 's' :: '/' :: rest => stripModelsAux rest
  | c :: rest => c :: stripModelsAux rest
  | [] => []

/-- `model_name.replace('models/', '')` from `_gemini_generate` line 137. -/
def strReplaceModels (s : String) : String := ⟨stripModelsAux s.data⟩

/-- The model-name computation of `_gemini_generate` lines 134-137:
`model or settings.GEMINI_MODEL`, then strip `models/` occurrences when the
name starts with that prefix. -/
def resolveModelName (model : Option String) : String :=
  let model_name := pyOrStr model settings.GEMINI_MODEL
  if strStartsWith model_name "models/" then strReplaceModels model_name else model_name

/-- One observable call into the external Gemini API. -/
structure ProviderCall where
  modelName : String
  prompt : String

/-- Result of `_gemini_generate`: the returned text plus the provider call
made, if any. -/
structure GemResult where
  text : String
  providerCall : Option ProviderCall

/-- `LLMClient._gemini_generate` (llm_client.py lines 120-154).  The
`temperature` and `max_tokens` parameters are received but, as in the source,
not forwarded to `generate_content`. -/
def gemini_generate (env : Env) (prompt : String) (model : Option String)
    (temperature : ℚ) (max_tokens : ℤ) : GemResult :=
  if env.geminiAvailable = false then
    { text := "Error: Gemini SDK not installed. Run: pip install google-generativeai"
      providerCall := none }
  else if strTruthy env.geminiApiKey = false then
    { text := "Error: Gemini API key not configured", providerCall := none }
  else
    let model_name := resolveModelName model
    match env.providerResponse model_name prompt with
    | Except.ok raw => { text := pyStrip raw, providerCall := some ⟨model_name, prompt⟩ }
    | Except.error e =>
      { text := "Gemini API error: " ++ e, providerCall := some ⟨model_name, prompt⟩ }

/-- Result of `LLMClient.generate`: the text the Python function returns,
together with the trace of the interaction (the prompt/model handed to
`_gemini_generate`, the resolved temperature and max-token values, and the
external provider call if one was made). -/
structure GenResult where
  text : String
  helperPrompt : String
  helperModel : Option String
  usedTemperature : ℚ
  usedMaxTokens : ℤ
  providerCall : Option ProviderCall

/-- `LLMClient.generate` (llm_client.py lines 44-80).  The outer
`try/except` around `_gemini_generate` is unreachable in this model because
`_gemini_generate` already absorbs every provider fault into its returned
text, so `generate`'s text is `_gemini_generate`'s text. -/
def generate (env : Env) (prompt : String) (model : Option String)
    (context : Option LCContext) (temperature : Option ℚ) (max_tokens : Option ℤ) :
    GenResult :=
  let temp := pyOrQ temperature settings.TEMPERATURE
  let tokens := pyOrZ max_tokens settings.MAX_TOKENS
  let enhanced := build_prompt prompt context
  let r := gemini_generate env enhanced model temp tokens
  { text := r.text, helperPrompt := enhanced, helperModel := model,
    usedTemperature := temp, usedMaxTokens := tokens, providerCall := r.providerCall }

/-- The model name of the external provider call made by a `generate`, if any. -/
def GenResult.providerModelName (g : GenResult) : Option String :=
  g.providerCall.map (fun c => c.modelName)

/-- The prompt of the external provider call made by a `generate`, if any. -/
def GenResult.providerPrompt (g : GenResult) : Option String :=
  g.providerCall.map (fun c => c.prompt)

/-- An entry of the hard-coded model list (`Model Descriptor`). -/
structure ModelDescriptor where
  id : String
  name : String
  provider : String
deriving DecidableEq

/-- `LLMClient.get_available_models` (llm_client.py lines 156-164). -/
def get_available_models (env : Env) : List ModelDescriptor :=
  if strTruthy env.geminiApiKey = false then []
  else
    [⟨"gemini-2.5-flash", "Gemini 2.5 Flash", "gemini"⟩,
     ⟨"gemini-1.5-flash", "Gemini 1.5 Flash", "gemini"⟩]

end LLMClient

/-- Modelled from the spec: `app/models/schemas.py` is not part of the given
sources; the spec's §3 "Page Context" record — `url`, `title`, `selectedText`
(optional text), `pageContent` (optional text), `snippet` (optional text). -/
structure PageContext where
  url : Option String
  title : Option String
  selectedText : Option String
  snippet : Option String
  pageContent : Option String

/-- Modelled from the spec: §3 "Memory Item" — `user` (text), `bot` (text),
`timestamp` (opaque, carried but not used in prompt construction). -/
structure MemoryItem where
  user : String
  bot : String
  timestamp : Option String

/-- Modelled from the spec: §3 "Query Request" — `prompt` required,
optional context, optional memory list, optional model identifier. -/
structure AIRequest where
  prompt : String
  context : Option PageContext
  memory : Option (List MemoryItem)
  model : Option String

/-- A memory entry as the dict handed to `_build_enhanced_prompt`: a Python
dict whose `user`/`bot`/`timestamp` keys may each be absent. -/
structure MemDict where
  user : Option String
  bot : Option String
  timestamp : Option String

namespace AIService

/-- The system-instruction block of `_build_enhanced_prompt`
(ai_service.py lines 96-117). -/
def SYSTEM_INSTRUCTIONS : String :=
  "You are VynceAI, an intelligent AI-powered web assistant and browser extension.\n\nABOUT VYNCEAI:\n- VynceAI is a Chrome browser extension that brings AI capabilities directly into the browser\n- It helps users with web tasks, automation, content understanding, and smart web interactions\n- VynceAI can read page content, answer questions about websites, and assist with browsing tasks\n- The product makes web browsing smarter and more productive with AI assistance\n\nYOUR PERSONALITY:\n- You are helpful, knowledgeable, and web-savvy\n- You provide concise, accurate responses focused on web and browsing contexts\n- You always identify yourself as \"VynceAI\" when asked about your name\n- You are enthusiastic about helping users be more productive online\n\nYOUR CAPABILITIES:\n- Understand and analyze web page content\n- Answer questions about websites and web content\n- Help with web-based tasks and automation\n- Provide smart suggestions based on page context\n- Remember conversation history for context-aware responses\n\nKeep responses concise, relevant, and helpful. Focus on web-related assistance."

/-- The two labelled lines emitted for one memory item
(ai_service.py lines 123-124): `User: {item.get('user', '')}` and
`VynceAI: {item.get('bot', '')}`. -/
def itemLines (it : MemDict) : List String :=
  ["User: " ++ it.user.getD "", "VynceAI: " ++ it.bot.getD ""]

/-- Python truthiness of the builder's `memory` argument:
`if memory and len(memory) > 0`. -/
def memTruthy : Option (List MemDict) → Bool
  | none => false
  | some l => !l.isEmpty

/-- The context lines collected by `_build_enhanced_prompt`
(ai_service.py lines 129-144): URL, title, selected text (truncated to 500),
then snippet, else page content (truncated to 500) — note that the
selected-text line and the snippet line are independent `if`s in the source,
only snippet/page-content form an `if/elif`. -/
def ctxParts (c : PageContext) : List String :=
  (if strTruthy c.url then ["Current Page: " ++ c.url.getD ""] else []) ++
  (if strTruthy c.title then ["Page Title: " ++ c.title.getD ""] else []) ++
  (if strTruthy c.selectedText then
    ["Selected Text: " ++ pyTake 500 (c.selectedText.getD "")] else []) ++
  (if strTruthy c.snippet then ["Page Snippet: " ++ c.snippet.getD ""]
   else if strTruthy c.pageContent then
    ["Page Content: " ++ pyTake 500 (c.pageContent.getD "")]
   else [])

/-- The delimited context block (ai_service.py lines 146-149): emitted only
when at least one context line is present. -/
def contextSection (context : Option PageContext) : List String :=
  match context with
  | none => []
  | some c =>
    let cp := ctxParts c
    if cp.isEmpty then [] else ["\n=== Page Context ==="] ++ cp ++ ["=== End Context ===\n"]

/-- The part list accumulated by `_build_enhanced_prompt`
(ai_service.py lines 93-153), before the final newline join. -/
def enhancedParts (prompt : String) (context : Option PageContext)
    (memory : Option (List MemDict)) : List String :=
  let parts := [SYSTEM_INSTRUCTIONS]
  let parts := parts ++
    (if memTruthy memory then
      ["\n=== Recent Conversation History ==="] ++ (memory.getD []).flatMap itemLines ++
      ["=== End History ===\n"]
     else [])
  let parts := parts ++ contextSection context
  parts ++ ["\nUser Question: " ++ prompt, "\nVynceAI Response:"]

/-- `_build_enhanced_prompt` (ai_service.py lines 81-155). -/
def build_enhanced_prompt (prompt : String) (context : Option PageContext)
    (memory : Option (List MemDict)) : String :=
  pyJoin "\n" (enhancedParts prompt context memory)

/-- `process_ai_query` (ai_service.py lines 14-33): forwards the prompt to
`llm_client.generate(prompt=prompt, model=model)` with no context and no
temperature/max-token overrides.  The Python function returns the `.text` of
this interaction record. -/
def process_ai_query (env : Env) (prompt : String) (model : String) :
    LLMClient.GenResult :=
  LLMClient.generate env prompt (some model) none none none

/-- The dict returned by `process_ai_query_advanced` (ai_service.py lines
74-79), plus the Model Client interaction record `gen` behind its `response`. -/
structure AdvResult where
  response : String
  model : String
  tokens : Nat
  success : Bool
  gen : LLMClient.GenResult

/-- `process_ai_query_advanced` (ai_service.py lines 35-79): builds the
enriched prompt, calls `llm_client.generate(prompt=enhanced_prompt,
model=model)`, and wraps the text with a whitespace word count and
`success = True`.  The `model_dump` conversion of a pydantic `PageContext`
to a dict is the identity in this embedding. -/
def process_ai_query_advanced (env : Env) (prompt : String)
    (context : Option PageContext) (memory : Option (List MemDict))
    (model : String) : AdvResult :=
  let enhanced := build_enhanced_prompt prompt context memory
  let g := LLMClient.generate env enhanced (some model) none none none
  { response := g.text, model := model, tokens := (pySplitWs g.text).length,
    success := true, gen := g }

end AIService

namespace Routes

/-- Outcome of the `/chat` endpoint: which processing path was taken and the
record it produced.  The `plain` constructor carries the Model Client
interaction and the `model` echo (`AIResponse(response=response,
model=req.model)`). -/
inductive ChatResult where
  | enriched (r : AIService.AdvResult)
  | plain (g : LLMClient.GenResult) (modelEcho : Option String)

/-- Python truthiness of `req.memory` in `ai_chat`: `None` and `[]` are falsy. -/
def memItemsTruthy : Option (List MemoryItem) → Bool
  | none => false
  | some l => !l.isEmpty

/-- `ai_chat` (routes_ai.py lines 14-54): converts memory items to dicts
(only when `req.memory` is truthy), then routes to the enriched path when
`req.context or req.memory` is truthy and to the plain path otherwise. -/
def ai_chat (env : Env) (req : AIRequest) : ChatResult :=
  let memory_list : Option (List MemDict) :=
    match req.memory with
    | none => none
    | some l =>
      if l.isEmpty then none
      else some (l.map fun m => ⟨some m.user, some m.bot, m.timestamp⟩)
  if req.context.isSome || memItemsTruthy req.memory then
    ChatResult.enriched (AIService.process_ai_query_advanced env req.prompt
      req.context memory_list (pyOrStr req.model "gemini-2.5-flash"))
  else
    ChatResult.plain (AIService.process_ai_query env req.prompt
      (pyOrStr req.model "gemini-2.5-flash")) req.model

/-- Whether `/chat` took the plain path. -/
def ChatResult.isPlain : ChatResult → Bool
  | ChatResult.plain _ _ => true
  | ChatResult.enriched _ => false

/-- Whether `/chat` took the enriched path. -/
def ChatResult.isEnriched : ChatResult → Bool
  | ChatResult.plain _ _ => false
  | ChatResult.enriched _ => true

/-- The response text of a `/chat` outcome. -/
def ChatResult.responseOf : ChatResult → String
  | ChatResult.plain g _ => g.text
  | ChatResult.enriched r => r.response

/-- The `tokens` field of a `/chat` outcome (absent on the plain path). -/
def ChatResult.tokensOf : ChatResult → Option Nat
  | ChatResult.plain _ _ => none
  | ChatResult.enriched r => some r.tokens

/-- The `success` field of a `/chat` outcome (absent on the plain path). -/
def ChatResult.successOf : ChatResult → Option Bool
  | ChatResult.plain _ _ => none
  | ChatResult.enriched r => some r.success

/-- The `model` echo of a `/chat` outcome. -/
def ChatResult.modelEchoOf : ChatResult → Option String
  | ChatResult.plain _ m => m
  | ChatResult.enriched r => some r.model

/-- The prompt handed to the Model Client (`generate`'s `prompt` argument)
by a `/chat` outcome. -/
def ChatResult.modelClientPrompt : ChatResult → String
  | ChatResult.plain g _ => g.helperPrompt
  | ChatResult.enriched r => r.gen.helperPrompt

/-- The prompt of the external provider call of a `/chat` outcome, if one
was made. -/
def ChatResult.providerPromptOf : ChatResult → Option String
  | ChatResult.plain g _ => g.providerPrompt
  | ChatResult.enriched r => r.gen.providerPrompt

/-- Outcome of `/summarize` and `/analyze`: either an HTTP 400 with a detail
message (the Model Client is never reached — no interaction record exists),
or a success payload `{response, model, url, title}` with the Model Client
interaction `g` behind it. -/
inductive PageEndpointResult where
  | badRequest (detail : String)
  | success (response : String) (model : Option String) (url : Option String)
      (title : Option String) (g : LLMClient.GenResult)

/-- The summarization prompt template (routes_ai.py lines 116-130). -/
def summaryTemplate (c : PageContext) : String :=
  "Please provide a comprehensive summary of this webpage:\n\nTitle: " ++
  (if strTruthy c.title then c.title.getD "" else "Unknown") ++
  "\nURL: " ++ (if strTruthy c.url then c.url.getD "" else "Unknown") ++
  "\n\nContent:\n" ++ pyTake 3000 (c.pageContent.getD "") ++
  "\n\nProvide:\n1. Main topic and purpose\n2. Key points (3-5 bullets)\n3. Target audience\n4. Content type (article, product page, docs, etc.)\n\nBe concise but informative."

/-- The analysis prompt template (routes_ai.py lines 165-181). -/
def analysisTemplate (c : PageContext) : String :=
  "Please provide a detailed analysis of this webpage:\n\nTitle: " ++
  (if strTruthy c.title then c.title.getD "" else "Unknown") ++
  "\nURL: " ++ (if strTruthy c.url then c.url.getD "" else "Unknown") ++
  "\n\nContent:\n" ++ pyTake 3000 (c.pageContent.getD "") ++
  "\n\nAnalyze:\n1. Content quality and credibility\n2. Structure and organization\n3. Key information and insights\n4. Sentiment and tone\n5. Readability level\n6. Calls-to-action or next steps\n\nProvide useful insights."

/-- `summarize_page` (routes_ai.py lines 98-145): 400 when
`not req.context or not req.context.pageContent`, otherwise the plain path
on the synthesized summary prompt. -/
def summarize_page (env : Env) (req : AIRequest) : PageEndpointResult :=
  match req.context with
  | none => PageEndpointResult.badRequest "Page content is required for summarization"
  | some c =>
    if strTruthy c.pageContent = false then
      PageEndpointResult.badRequest "Page content is required for summarization"
    else
      let g := AIService.process_ai_query env (summaryTemplate c)
        (pyOrStr req.model "gemini-2.5-flash")
      PageEndpointResult.success g.text req.model c.url c.title g

/-- `analyze_page` (routes_ai.py lines 147-196): 400 when
`not req.context or not req.context.pageContent`, otherwise the plain path
on the synthesized analysis prompt. -/
def analyze_page (env : Env) (req : AIRequest) : PageEndpointResult :=
  match req.context with
  | none => PageEndpointResult.badRequest "Page content is required for analysis"
  | some c =>
    if strTruthy c.pageContent = false then
      PageEndpointResult.badRequest "Page content is required for analysis"
    else
      let g := AIService.process_ai_query env (analysisTemplate c)
        (pyOrStr req.model "gemini-2.5-flash")
      PageEndpointResult.success g.text req.model c.url c.title g

end Routes

/-! ### Helper lemmas -/

/-- A part of a joined list occurs in the joined string as a substring. -/
theorem mem_pyJoin_substr (sep a : String) :
    ∀ (l : List String), a ∈ l → a.data <:+: (pyJoin sep l).data
  | [], h => absurd h (List.not_mem_nil a)
  | [b], h => by
      have hb : a = b := List.mem_singleton.mp h
      subst hb
      exact List.infix_refl _
  | b :: c :: rest, h => by
      rcases List.mem_cons.mp h with rfl | h'
      · show a.data <:+: (a ++ sep ++ pyJoin sep (c :: rest)).data
        rw [String.data_append, String.data_append]
        exact ((List.prefix_append a.data sep.data).trans (List.prefix_append _ _)).isInfix
      · have ih := mem_pyJoin_substr sep a (c :: rest) h'
        show a.data <:+: (b ++ sep ++ pyJoin sep (c :: rest)).data
        rw [String.data_append]
        exact ih.trans (List.suffix_append _ _).isInfix

/-- On a character list containing no occurrence of `models/`, the
`replace('models/', '')` scan is the identity. -/
theorem stripModelsAux_no_occ :
    ∀ (l : List Char), ¬ (LLMClient.modelsPat <:+: l) → LLMClient.stripModelsAux l = l := by
  intro l
  induction l using LLMClient.stripModelsAux.induct with
  | case1 rest ih =>
      intro h
      exact absurd
        (⟨[], rest, rfl⟩ :
          LLMClient.modelsPat <:+: 'm' :: 'o' :: 'd' :: 'e' :: 'l' :: 's' :: '/' :: rest) h
  | case2 c rest hne ih =>
      intro h
      rw [LLMClient.stripModelsAux.eq_2 c rest hne, ih (fun hi => h (List.infix_cons hi))]
  | case3 =>
      intro h
      rfl

/-- Splitting `envConfigured`. -/
theorem envConfigured_iff (env : Env) :
    envConfigured env = true ↔ env.geminiAvailable = true ∧ strTruthy env.geminiApiKey = true := by
  simp [envConfigured]

/-- `_gemini_generate` when the SDK is unavailable. -/
theorem gemini_generate_no_sdk (env : Env) (p : String) (m : Option String) (t : ℚ) (k : ℤ)
    (h : env.geminiAvailable = false) :
    LLMClient.gemini_generate env p m t k =
      { text := "Error: Gemini SDK not installed. Run: pip install google-generativeai"
        providerCall := none } := by
  simp [LLMClient.gemini_generate, h]

/-- `_gemini_generate` when the SDK imported but no truthy credential exists. -/
theorem gemini_generate_no_key (env : Env) (p : String) (m : Option String) (t : ℚ) (k : ℤ)
    (h : env.geminiAvailable = true) (h2 : strTruthy env.geminiApiKey = false) :
    LLMClient.gemini_generate env p m t k =
      { text := "Error: Gemini API key not configured", providerCall := none } := by
  simp [LLMClient.gemini_generate, h, h2]

/-- `_gemini_generate` on a successful provider call. -/
theorem gemini_generate_ok (env : Env) (p : String) (m : Option String) (t : ℚ) (k : ℤ)
    (raw : String) (h : envConfigured env = true)
    (hr : env.providerResponse (LLMClient.resolveModelName m) p = Except.ok raw) :
    LLMClient.gemini_generate env p m t k =
      { text := pyStrip raw, providerCall := some ⟨LLMClient.resolveModelName m, p⟩ } := by
  rcases (envConfigured_iff env).mp h with ⟨h1, h2⟩
  simp [LLMClient.gemini_generate, h1, h2, hr]

/-- `_gemini_generate` on a provider call that raised. -/
theorem gemini_generate_err (env : Env) (p : String) (m : Option String) (t : ℚ) (k : ℤ)
    (e : String) (h : envConfigured env = true)
    (hr : env.providerResponse (LLMClient.resolveModelName m) p = Except.error e) :
    LLMClient.gemini_generate env p m t k =
      { text := "Gemini API error: " ++ e, providerCall := some ⟨LLMClient.resolveModelName m, p⟩ } := by
  rcases (envConfigured_iff env).mp h with ⟨h1, h2⟩
  simp [LLMClient.gemini_generate, h1, h2, hr]

/-- `generate` unfolded to its `_gemini_generate` call. -/
theorem generate_eq (env : Env) (p : String) (m : Option String)
    (ctx : Option LLMClient.LCContext) (t : Option ℚ) (k : Option ℤ) :
    LLMClient.generate env p m ctx t k =
      { text := (LLMClient.gemini_generate env (LLMClient.build_prompt p ctx) m
          (pyOrQ t settings.TEMPERATURE) (pyOrZ k settings.MAX_TOKENS)).text
        helperPrompt := LLMClient.build_prompt p ctx
        helperModel := m
        usedTemperature := pyOrQ t settings.TEMPERATURE
        usedMaxTokens := pyOrZ k settings.MAX_TOKENS
        providerCall := (LLMClient.gemini_generate env (LLMClient.build_prompt p ctx) m
          (pyOrQ t settings.TEMPERATURE) (pyOrZ k settings.MAX_TOKENS)).providerCall } := rfl

/-- Whenever the client is configured, the provider is called with the
resolved model name, whatever the oracle answers. -/
theorem generate_providerModelName (env : Env) (p : String) (m : Option String)
    (ctx : Option LLMClient.LCContext) (t : Option ℚ) (k : Option ℤ)
    (h : envConfigured env = true) :
    (LLMClient.generate env p m ctx t k).providerModelName =
      some (LLMClient.resolveModelName m) := by
  rw [generate_eq]
  cases hr : env.providerResponse (LLMClient.resolveModelName m) (LLMClient.build_prompt p ctx) with
  | ok raw =>
      rw [LLMClient.GenResult.providerModelName]
      simp [gemini_generate_ok env _ m _ _ raw h hr]
  | error e =>
      rw [LLMClient.GenResult.providerModelName]
      simp [gemini_generate_err env _ m _ _ e h hr]

/-- Whenever the client is configured, the provider is called with exactly the
prompt handed to `_gemini_generate`, whatever the oracle answers. -/
theorem generate_providerPrompt (env : Env) (p : String) (m : Option String)
    (ctx : Option LLMClient.LCContext) (t : Option ℚ) (k : Option ℤ)
    (h : envConfigured env = true) :
    (LLMClient.generate env p m ctx t k).providerPrompt =
      some (LLMClient.build_prompt p ctx) := by
  rw [generate_eq]
  cases hr : env.providerResponse (LLMClient.resolveModelName m) (LLMClient.build_prompt p ctx) with
  | ok raw =>
      rw [LLMClient.GenResult.providerPrompt]
      simp [gemini_generate_ok env _ m _ _ raw h hr]
  | error e =>
      rw [LLMClient.GenResult.providerPrompt]
      simp [gemini_generate_err env _ m _ _ e h hr]

/-- The name resolution applied to an identifier of the shape
`models/<suffix>` where the suffix holds no further occurrence of `models/`:
exactly the prefix is stripped. -/
theorem resolveModelName_models (suffix : String)
    (h : ¬ (LLMClient.modelsPat <:+: suffix.data)) :
    LLMClient.resolveModelName (some ("models/" ++ suffix)) = suffix := by
  have hne : pyOrStr (some ("models/" ++ suffix)) settings.GEMINI_MODEL = "models/" ++ suffix := by
    have hf : ("models/" ++ suffix = "") ↔ False := by simp [String.ext_iff]
    simp [pyOrStr, hf]
  have hsw : strStartsWith ("models/" ++ suffix) "models/" = true := by
    simp [strStartsWith, List.isPrefixOf]
  simp only [LLMClient.resolveModelName, hne, hsw, if_true]
  show String.mk (LLMClient.stripModelsAux ("models/" ++ suffix).data) = suffix
  rw [show ("models/" ++ suffix).data =
        'm' :: 'o' :: 'd' :: 'e' :: 'l' :: 's' :: '/' :: suffix.data from rfl]
  rw [show LLMClient.stripModelsAux ('m' :: 'o' :: 'd' :: 'e' :: 'l' :: 's' :: '/' :: suffix.data)
        = LLMClient.stripModelsAux suffix.data from rfl]
  rw [stripModelsAux_no_occ suffix.data h]

/-- The name resolution with no supplied model: the configured default. -/
theorem resolveModelName_none : LLMClient.resolveModelName none = settings.GEMINI_MODEL := rfl

/-! ### Concrete fixtures for witnesses and counterexamples -/

/-- A fully configured environment whose provider always answers `"Hello world"`. -/
def envOk : Env :=
  { geminiAvailable := true, geminiApiKey := some "test-key"
    providerResponse := fun _ _ => Except.ok "Hello world" }

/-- An environment in which the Gemini SDK failed to import. -/
def envNoSdk : Env :=
  { geminiAvailable := false, geminiApiKey := some "test-key"
    providerResponse := fun _ _ => Except.ok "Hello world" }

/-- An environment with the SDK importable but no credential configured. -/
def envNoKey : Env :=
  { geminiAvailable := true, geminiApiKey := none
    providerResponse := fun _ _ => Except.ok "Hello world" }

/-- A page context carrying both a selected text and a snippet. -/
def ctxBoth : PageContext := ⟨none, none, some "SEL", some "SNIP", some "PAGE"⟩

/-- A page context with every field absent. -/
def ctxEmpty : PageContext := ⟨none, none, none, none, none⟩

/-- Modelled from the spec's words for the C7 normalization ("strips that
prefix and nothing else"): remove one leading `models/` and leave the rest of
the identifier unchanged.  Stated only to compare against the source's
`replace`-based normalization. -/
def specStripLeading (s : String) : String :=
  if strStartsWith s "models/" then ⟨s.data.drop 7⟩ else s

/-! ### Claim theorems -/

/-- C7 counterexample: for the supplied identifier `models/models/foo` the
configured client calls the provider with model name `foo`, whereas stripping
the prefix and nothing else (`specStripLeading`, the claim's words) yields
`models/foo`.  The code's `replace('models/', '')` removes every occurrence,
not only the leading prefix. -/
theorem c7_counterexample :
    (LLMClient.generate envOk "p" (some "models/models/foo") none none none).providerModelName
      = some "foo"
    ∧ specStripLeading "models/models/foo" = "models/foo"
    ∧ ("foo" : String) ≠ "models/foo" := by
  refine ⟨by decide, by decide, by decide⟩

/-- C7 (amended): when the client is configured, a supplied identifier
`models/<suffix>` whose suffix holds no further occurrence of `models/` leads
to a provider call with model name `<suffix>` (in general, every occurrence of
`models/` is removed from an identifier starting with that prefix), and with
no supplied identifier the provider is called with the configured default
model. -/
theorem c7_model_name_normalization (env : Env) (p suffix : String)
    (ctx : Option LLMClient.LCContext) (t : Option ℚ) (k : Option ℤ)
    (hc : envConfigured env = true) (h : ¬ (LLMClient.modelsPat <:+: suffix.data)) :
    (LLMClient.generate env p (some ("models/" ++ suffix)) ctx t k).providerModelName
      = some suffix
    ∧ (LLMClient.generate env p none ctx t k).providerModelName
      = some settings.GEMINI_MODEL := by
  constructor
  · rw [generate_providerModelName env p _ ctx t k hc, resolveModelName_models suffix h]
  · rw [generate_providerModelName env p none ctx t k hc, resolveModelName_none]

/-- C7 witness: the spec's own example, `generate(prompt, "models/foo")`,
calls the provider with model name `foo`. -/
theorem c7_model_name_normalization_witness :
    (envConfigured envOk = true ∧ ¬ (LLMClient.modelsPat <:+: ("foo" : String).data))
    ∧ (LLMClient.generate envOk "hi" (some ("models/" ++ "foo")) none none none).providerModelName
        = some "foo"
    ∧ (LLMClient.generate envOk "hi" none none none none).providerModelName
        = some settings.GEMINI_MODEL :=
  ⟨⟨by decide, by decide⟩,
   c7_model_name_normalization envOk "hi" "foo" none none none (by decide) (by decide)⟩

/-- C1: `generate` is a total function into text — no internal fault escapes.
When the SDK is missing or the credential is falsy the text is an
`Error: `-marked message; when the provider call raises, the text is the
`Gemini API error: `-marked message; on success it is the provider's answer,
stripped.  These cases are exhaustive over every prompt, model identifier,
context object, temperature and max-token argument. -/
theorem c1_generate_never_raises (env : Env) (p : String) (m : Option String)
    (ctx : Option LLMClient.LCContext) (t : Option ℚ) (k : Option ℤ) :
    ((env.geminiAvailable = false ∨ strTruthy env.geminiApiKey = false) →
      strStartsWith (LLMClient.generate env p m ctx t k).text "Error: " = true)
    ∧ (∀ e, envConfigured env = true →
        env.providerResponse (LLMClient.resolveModelName m) (LLMClient.build_prompt p ctx)
          = Except.error e →
        (LLMClient.generate env p m ctx t k).text = "Gemini API error: " ++ e
        ∧ strStartsWith ("Gemini API error: " ++ e) "Gemini API error: " = true)
    ∧ (∀ raw, envConfigured env = true →
        env.providerResponse (LLMClient.resolveModelName m) (LLMClient.build_prompt p ctx)
          = Except.ok raw →
        (LLMClient.generate env p m ctx t k).text = pyStrip raw) := by
  refine ⟨?_, ?_, ?_⟩
  · intro h
    rw [generate_eq]
    rcases h with h | h
    · rw [gemini_generate_no_sdk env _ m _ _ h]
      simp [strStartsWith, List.isPrefixOf]
    · cases ha : env.geminiAvailable with
      | false =>
          rw [gemini_generate_no_sdk env _ m _ _ ha]
          simp [strStartsWith, List.isPrefixOf]
      | true =>
          rw [gemini_generate_no_key env _ m _ _ ha h]
          simp [strStartsWith, List.isPrefixOf]
  · intro e hcfg hr
    rw [generate_eq, gemini_generate_err env _ m _ _ e hcfg hr]
    exact ⟨rfl, by simp [strStartsWith, List.isPrefixOf]⟩
  · intro raw hcfg hr
    rw [generate_eq, gemini_generate_ok env _ m _ _ raw hcfg hr]

/-- C1 witness: with the SDK missing, `generate` still returns text, marked
with the error prefix. -/
theorem c1_generate_never_raises_witness :
    (envNoSdk.geminiAvailable = false ∨ strTruthy envNoSdk.geminiApiKey = false)
    ∧ strStartsWith (LLMClient.generate envNoSdk "hi" none none none none).text "Error: " = true :=
  ⟨Or.inl rfl, (c1_generate_never_raises envNoSdk "hi" none none none none).1 (Or.inl rfl)⟩

/-- C9: `get_available_models` is empty exactly when no truthy credential is
configured; with a credential it is the full hard-coded two-descriptor list —
never a partially populated one. -/
theorem c9_model_list_gated (env : Env) :
    (LLMClient.get_available_models env = [] ↔ strTruthy env.geminiApiKey = false)
    ∧ (strTruthy env.geminiApiKey = true →
        LLMClient.get_available_models env =
          [⟨"gemini-2.5-flash", "Gemini 2.5 Flash", "gemini"⟩,
           ⟨"gemini-1.5-flash", "Gemini 1.5 Flash", "gemini"⟩]
        ∧ LLMClient.get_available_models env ≠ []) := by
  cases h : strTruthy env.geminiApiKey with
  | false => simp [LLMClient.get_available_models, h]
  | true => simp [LLMClient.get_available_models, h]

/-- C9 witness: a configured environment yields the full, non-empty list. -/
theorem c9_model_list_gated_witness :
    (strTruthy envOk.geminiApiKey = true)
    ∧ LLMClient.get_available_models envOk =
        [⟨"gemini-2.5-flash", "Gemini 2.5 Flash", "gemini"⟩,
         ⟨"gemini-1.5-flash", "Gemini 1.5 Flash", "gemini"⟩]
    ∧ LLMClient.get_available_models envOk ≠ [] :=
  ⟨by decide, (c9_model_list_gated envOk).2 (by decide)⟩

/-- C5 counterexample: a caller-supplied temperature of 0 (and max-token
count of 0) is present but discarded for the configured defaults — Python
`or` treats the number 0 as absent — so the values used are not the
caller-supplied ones the claim requires. -/
theorem c5_counterexample :
    (LLMClient.generate envOk "p" none none (some 0) (some 0)).usedTemperature
      = settings.TEMPERATURE
    ∧ (LLMClient.generate envOk "p" none none (some 0) (some 0)).usedMaxTokens
      = settings.MAX_TOKENS
    ∧ settings.TEMPERATURE ≠ (0 : ℚ) ∧ settings.MAX_TOKENS ≠ (0 : ℤ) := by
  refine ⟨?_, ?_, by norm_num [settings.TEMPERATURE], by norm_num [settings.MAX_TOKENS]⟩
  · rw [generate_eq]
    show pyOrQ (some 0) settings.TEMPERATURE = settings.TEMPERATURE
    simp [pyOrQ]
  · rw [generate_eq]
    show pyOrZ (some 0) settings.MAX_TOKENS = settings.MAX_TOKENS
    simp [pyOrZ]

/-- C5 (amended): the temperature and max-token values handed to the
provider-specific generation call are the caller-supplied ones when supplied
and non-zero, and the configured defaults when absent — but a supplied 0 is
treated as absent (Python `or`) and replaced by the default. -/
theorem c5_resolved_generation_params (env : Env) (p : String) (m : Option String)
    (ctx : Option LLMClient.LCContext) (t : Option ℚ) (k : Option ℤ) :
    (∀ v, t = some v → v ≠ 0 →
      (LLMClient.generate env p m ctx t k).usedTemperature = v)
    ∧ ((t = none ∨ t = some 0) →
      (LLMClient.generate env p m ctx t k).usedTemperature = settings.TEMPERATURE)
    ∧ (∀ n, k = some n → n ≠ 0 →
      (LLMClient.generate env p m ctx t k).usedMaxTokens = n)
    ∧ ((k = none ∨ k = some 0) →
      (LLMClient.generate env p m ctx t k).usedMaxTokens = settings.MAX_TOKENS) := by
  refine ⟨?_, ?_, ?_, ?_⟩
  · rintro v rfl hv
    rw [generate_eq]
    show pyOrQ (some v) settings.TEMPERATURE = v
    simp [pyOrQ, hv]
  · rintro (rfl | rfl)
    · rw [generate_eq]
      show pyOrQ none settings.TEMPERATURE = settings.TEMPERATURE
      rfl
    · rw [generate_eq]
      show pyOrQ (some 0) settings.TEMPERATURE = settings.TEMPERATURE
      simp [pyOrQ]
  · rintro n rfl hn
    rw [generate_eq]
    show pyOrZ (some n) settings.MAX_TOKENS = n
    simp [pyOrZ, hn]
  · rintro (rfl | rfl)
    · rw [generate_eq]
      show pyOrZ none settings.MAX_TOKENS = settings.MAX_TOKENS
      rfl
    · rw [generate_eq]
      show pyOrZ (some 0) settings.MAX_TOKENS = settings.MAX_TOKENS
      simp [pyOrZ]

/-- C5 witness: supplied non-zero values 1 and 5 are the ones used. -/
theorem c5_resolved_generation_params_witness :
    ((some (1 : ℚ) = some 1) ∧ ((1 : ℚ) ≠ 0) ∧ (some (5 : ℤ) = some 5) ∧ ((5 : ℤ) ≠ 0))
    ∧ (LLMClient.generate envOk "p" none none (some 1) (some 5)).usedTemperature = 1
    ∧ (LLMClient.generate envOk "p" none none (some 1) (some 5)).usedMaxTokens = 5 :=
  ⟨⟨rfl, by norm_num, rfl, by norm_num⟩,
   (c5_resolved_generation_params envOk "p" none none (some 1) (some 5)).1 1 rfl (by norm_num),
   (c5_resolved_generation_params envOk "p" none none (some 1) (some 5)).2.2.1 5 rfl
     (by norm_num)⟩

/-- C4: a request with no context and no non-empty memory takes the plain
path, the Model Client receives exactly the request's prompt (no persona
preamble, history block or context block), and — whenever the client is
configured, so that the provider is actually called — the provider call's
prompt is byte-for-byte the request's prompt. -/
theorem c4_plain_path_forwards_prompt (env : Env) (req : AIRequest)
    (hc : req.context = none) (hm : Routes.memItemsTruthy req.memory = false) :
    (Routes.ai_chat env req).isPlain = true
    ∧ (Routes.ai_chat env req).modelClientPrompt = req.prompt
    ∧ (envConfigured env = true →
        (Routes.ai_chat env req).providerPromptOf = some req.prompt) := by
  have hcond : (req.context.isSome || Routes.memItemsTruthy req.memory) = false := by
    rw [hc, hm]
    rfl
  have hchat : Routes.ai_chat env req =
      Routes.ChatResult.plain
        (AIService.process_ai_query env req.prompt (pyOrStr req.model "gemini-2.5-flash"))
        req.model := by
    simp only [Routes.ai_chat, hcond, Bool.false_eq_true, if_false]
  refine ⟨?_, ?_, ?_⟩
  · rw [hchat]
    rfl
  · rw [hchat]
    rfl
  · intro hcfg
    rw [hchat]
    show (LLMClient.generate env req.prompt (some (pyOrStr req.model "gemini-2.5-flash"))
      none none none).providerPrompt = some req.prompt
    rw [generate_providerPrompt env req.prompt _ none none none hcfg]
    rfl

/-- C4 witness: a bare request is forwarded untouched. -/
theorem c4_plain_path_forwards_prompt_witness :
    ((⟨"hi", none, none, none⟩ : AIRequest).context = none
      ∧ Routes.memItemsTruthy (⟨"hi", none, none, none⟩ : AIRequest).memory = false
      ∧ envConfigured envOk = true)
    ∧ (Routes.ai_chat envOk ⟨"hi", none, none, none⟩).isPlain = true
    ∧ (Routes.ai_chat envOk ⟨"hi", none, none, none⟩).modelClientPrompt = "hi"
    ∧ (Routes.ai_chat envOk ⟨"hi", none, none, none⟩).providerPromptOf = some "hi" :=
  ⟨⟨rfl, rfl, by decide⟩,
   (c4_plain_path_forwards_prompt envOk ⟨"hi", none, none, none⟩ rfl rfl).1,
   (c4_plain_path_forwards_prompt envOk ⟨"hi", none, none, none⟩ rfl rfl).2.1,
   (c4_plain_path_forwards_prompt envOk ⟨"hi", none, none, none⟩ rfl rfl).2.2 (by decide)⟩

/-- A `/chat` request on the enriched path with a supplied empty model string. -/
def reqEmptyModel : AIRequest := ⟨"p", some ctxEmpty, none, some ""⟩

/-- C6 counterexample: a request on the enriched path whose supplied model
identifier is the empty string is echoed as the configured default
`gemini-2.5-flash`, not as the caller's model — Python `or` treats `""` as
absent — contradicting the claim's "the caller's model if supplied". -/
theorem c6_counterexample :
    (Routes.ai_chat envOk reqEmptyModel).modelEchoOf = some "gemini-2.5-flash"
    ∧ reqEmptyModel.model = some ""
    ∧ (some "gemini-2.5-flash" : Option String) ≠ some "" := by
  refine ⟨by decide, rfl, by decide⟩

/-- The fields of the record built by `process_ai_query_advanced`: the token
count is the whitespace word count of the response, `success` is true
unconditionally, and `model` echoes the argument. -/
theorem adv_record_fields (env : Env) (p : String) (ctx : Option PageContext)
    (mem : Option (List MemDict)) (model : String) :
    (AIService.process_ai_query_advanced env p ctx mem model).tokens
      = (pySplitWs (AIService.process_ai_query_advanced env p ctx mem model).response).length
    ∧ (AIService.process_ai_query_advanced env p ctx mem model).success = true
    ∧ (AIService.process_ai_query_advanced env p ctx mem model).model = model := by
  refine ⟨rfl, rfl, rfl⟩

/-- C6 (amended): on the enriched path the response record has `tokens` equal
to the whitespace word count of its `response` text, `success = true`
unconditionally (even when the text is a provider error fallback), and
`model` equal to the caller's model when supplied and non-empty, otherwise
the configured default. -/
theorem c6_enriched_record (env : Env) (req : AIRequest)
    (h : (req.context.isSome || Routes.memItemsTruthy req.memory) = true) :
    (Routes.ai_chat env req).isEnriched = true
    ∧ (Routes.ai_chat env req).tokensOf =
        some (pySplitWs ((Routes.ai_chat env req).responseOf)).length
    ∧ (Routes.ai_chat env req).successOf = some true
    ∧ (Routes.ai_chat env req).modelEchoOf = some (pyOrStr req.model "gemini-2.5-flash") := by
  have hchat : Routes.ai_chat env req =
      Routes.ChatResult.enriched (AIService.process_ai_query_advanced env req.prompt
        req.context
        (match req.memory with
          | none => none
          | some l =>
            if l.isEmpty then none
            else some (l.map fun mm => ⟨some mm.user, some mm.bot, mm.timestamp⟩))
        (pyOrStr req.model "gemini-2.5-flash")) := by
    simp only [Routes.ai_chat, h, if_true]
  rw [hchat]
  exact ⟨rfl, congrArg some (adv_record_fields env req.prompt req.context _ _).1, rfl, rfl⟩

/-- C6 witness: a contextful request yields the enriched record shape. -/
theorem c6_enriched_record_witness :
    ((⟨"what", some ctxBoth, none, some "m1"⟩ : AIRequest).context.isSome
        || Routes.memItemsTruthy (⟨"what", some ctxBoth, none, some "m1"⟩ : AIRequest).memory)
      = true
    ∧ (Routes.ai_chat envOk ⟨"what", some ctxBoth, none, some "m1"⟩).isEnriched = true
    ∧ (Routes.ai_chat envOk ⟨"what", some ctxBoth, none, some "m1"⟩).tokensOf =
        some (pySplitWs ((Routes.ai_chat envOk ⟨"what", some ctxBoth, none, some "m1"⟩).responseOf)).length
    ∧ (Routes.ai_chat envOk ⟨"what", some ctxBoth, none, some "m1"⟩).successOf = some true
    ∧ (Routes.ai_chat envOk ⟨"what", some ctxBoth, none, some "m1"⟩).modelEchoOf
        = some (pyOrStr (some "m1") "gemini-2.5-flash") :=
  ⟨rfl,
   (c6_enriched_record envOk ⟨"what", some ctxBoth, none, some "m1"⟩ rfl).1,
   (c6_enriched_record envOk ⟨"what", some ctxBoth, none, some "m1"⟩ rfl).2.1,
   (c6_enriched_record envOk ⟨"what", some ctxBoth, none, some "m1"⟩ rfl).2.2.1,
   (c6_enriched_record envOk ⟨"what", some ctxBoth, none, some "m1"⟩ rfl).2.2.2⟩

/-- C2 counterexample: with both a selected text and a snippet present, the
snippet line does appear in the composed prompt — the source's selected-text
`if` and the snippet `if/elif` are independent statements, so the snippet is
not suppressed by the selected text. -/
theorem c2_counterexample :
    StrContains (AIService.build_enhanced_prompt "q" (some ctxBoth) none)
      "Page Snippet: SNIP" := by
  have hmem : ("Page Snippet: SNIP" : String) ∈ AIService.enhancedParts "q" (some ctxBoth) none := by
    decide
  exact mem_pyJoin_substr "\n" _ _ hmem

/-- C2 (amended): when both `selectedText` and `snippet` are present and
non-empty, the context block contains both the selected-text line (truncated
to 500 characters) and the snippet line; only raw `pageContent` is suppressed
— no `Page Content` line is emitted, whatever `pageContent` holds. -/
theorem c2_snippet_not_suppressed (u t : Option String) (sel snip : String)
    (pc : Option String) (hs : sel ≠ "") (hn : snip ≠ "") :
    ("Selected Text: " ++ pyTake 500 sel) ∈ AIService.ctxParts ⟨u, t, some sel, some snip, pc⟩
    ∧ ("Page Snippet: " ++ snip) ∈ AIService.ctxParts ⟨u, t, some sel, some snip, pc⟩
    ∧ ∀ s ∈ AIService.ctxParts ⟨u, t, some sel, some snip, pc⟩,
        strStartsWith s "Page Content: " = false := by
  have hsel : strTruthy (some sel) = true := by simp [strTruthy, hs]
  have hsnip : strTruthy (some snip) = true := by simp [strTruthy, hn]
  have h1 : ∀ x : String, strStartsWith ("Current Page: " ++ x) "Page Content: " = false := by
    intro x
    simp [strStartsWith, List.isPrefixOf]
  have h2 : ∀ x : String, strStartsWith ("Page Title: " ++ x) "Page Content: " = false := by
    intro x
    simp [strStartsWith, List.isPrefixOf]
  have h3 : ∀ x : String, strStartsWith ("Selected Text: " ++ x) "Page Content: " = false := by
    intro x
    simp [strStartsWith, List.isPrefixOf]
  have h4 : ∀ x : String, strStartsWith ("Page Snippet: " ++ x) "Page Content: " = false := by
    intro x
    simp [strStartsWith, List.isPrefixOf]
  refine ⟨?_, ?_, ?_⟩
  · simp [AIService.ctxParts, hsel, hsnip]
  · simp [AIService.ctxParts, hsel, hsnip]
  · intro s hmem
    simp only [AIService.ctxParts, hsel, hsnip, if_true, List.mem_append,
      List.mem_singleton] at hmem
    rcases hmem with ((hmem | hmem) | hmem) | hmem
    · split at hmem
      · rw [List.mem_singleton] at hmem
        subst hmem
        exact h1 _
      · exact absurd hmem (List.not_mem_nil s)
    · split at hmem
      · rw [List.mem_singleton] at hmem
        subst hmem
        exact h2 _
      · exact absurd hmem (List.not_mem_nil s)
    · subst hmem
      exact h3 _
    · subst hmem
      exact h4 _

/-- C2 witness: concrete selected text and snippet both land in the block,
page content does not. -/
theorem c2_snippet_not_suppressed_witness :
    (("SEL" : String) ≠ "" ∧ ("SNIP" : String) ≠ "")
    ∧ ("Selected Text: " ++ pyTake 500 "SEL")
        ∈ AIService.ctxParts ⟨none, none, some "SEL", some "SNIP", some "PAGE"⟩
    ∧ ("Page Snippet: " ++ "SNIP")
        ∈ AIService.ctxParts ⟨none, none, some "SEL", some "SNIP", some "PAGE"⟩
    ∧ ∀ s ∈ AIService.ctxParts ⟨none, none, some "SEL", some "SNIP", some "PAGE"⟩,
        strStartsWith s "Page Content: " = false :=
  ⟨⟨by decide, by decide⟩,
   (c2_snippet_not_suppressed none none "SEL" "SNIP" (some "PAGE") (by decide) (by decide)).1,
   (c2_snippet_not_suppressed none none "SEL" "SNIP" (some "PAGE") (by decide) (by decide)).2.1,
   (c2_snippet_not_suppressed none none "SEL" "SNIP" (some "PAGE") (by decide) (by decide)).2.2⟩

/-- C3: with non-empty memory the enriched prompt is exactly the newline join
of: the fixed persona preamble; the history header; for each memory item in
supplied order the labelled user line then the labelled assistant line; the
history footer; the optional context block; the literal user question; the
assistant cue.  In particular every memory turn appears before the final user
question. -/
theorem c3_memory_block_order (p : String) (ctx : Option PageContext)
    (mem : List MemDict) (h : mem ≠ []) :
    AIService.build_enhanced_prompt p ctx (some mem) =
      pyJoin "\n" ([AIService.SYSTEM_INSTRUCTIONS, "\n=== Recent Conversation History ==="]
        ++ mem.flatMap AIService.itemLines ++ ["=== End History ===\n"]
        ++ AIService.contextSection ctx
        ++ ["\nUser Question: " ++ p, "\nVynceAI Response:"]) := by
  have hm : AIService.memTruthy (some mem) = true := by
    simp [AIService.memTruthy, h]
  simp [AIService.build_enhanced_prompt, AIService.enhancedParts, hm]

/-- C3 witness: one memory item, no context. -/
theorem c3_memory_block_order_witness :
    (([⟨some "u1", some "b1", none⟩] : List MemDict) ≠ [])
    ∧ AIService.build_enhanced_prompt "q" none (some [⟨some "u1", some "b1", none⟩]) =
      pyJoin "\n" ([AIService.SYSTEM_INSTRUCTIONS, "\n=== Recent Conversation History ==="]
        ++ ([⟨some "u1", some "b1", none⟩] : List MemDict).flatMap AIService.itemLines
        ++ ["=== End History ===\n"]
        ++ AIService.contextSection none
        ++ ["\nUser Question: " ++ "q", "\nVynceAI Response:"]) :=
  ⟨List.cons_ne_nil _ _,
   c3_memory_block_order "q" none [⟨some "u1", some "b1", none⟩] (List.cons_ne_nil _ _)⟩

/-- C10: the enriched prompt builder is total over partially-formed memory
items — an item whose `user` or `bot` key is missing behaves exactly like one
carrying the empty string for that key, and an item missing both keys yields
the labelled lines `User: ` and `VynceAI: ` with empty turns. -/
theorem c10_partial_memory_items_default_empty (p : String) (ctx : Option PageContext)
    (m1 m2 : List MemDict) (u b ts : Option String) :
    AIService.build_enhanced_prompt p ctx (some (m1 ++ ⟨u, b, ts⟩ :: m2)) =
      AIService.build_enhanced_prompt p ctx
        (some (m1 ++ ⟨some (u.getD ""), some (b.getD ""), ts⟩ :: m2))
    ∧ AIService.itemLines ⟨none, none, ts⟩ = ["User: ", "VynceAI: "] := by
  constructor
  · have hl : AIService.itemLines ⟨u, b, ts⟩
        = AIService.itemLines ⟨some (u.getD ""), some (b.getD ""), ts⟩ := by
      cases u <;> cases b <;> rfl
    simp [AIService.build_enhanced_prompt, AIService.enhancedParts, AIService.memTruthy, hl]
  · rfl

/-- C8: a summarize or analyze request whose context is absent or whose
`pageContent` is absent receives the 400 detail message; the outcome is the
`badRequest` constructor, which carries no Model Client interaction — the
Model Client's `generate` is never invoked on that request. -/
theorem c8_page_content_required (env : Env) (req : AIRequest)
    (h : req.context.bind (fun c => c.pageContent) = none) :
    Routes.summarize_page env req
      = Routes.PageEndpointResult.badRequest "Page content is required for summarization"
    ∧ Routes.analyze_page env req
      = Routes.PageEndpointResult.badRequest "Page content is required for analysis" := by
  cases hc : req.context with
  | none =>
      constructor
      · simp [Routes.summarize_page, hc]
      · simp [Routes.analyze_page, hc]
  | some c =>
      have hpc : c.pageContent = none := by
        rw [hc] at h
        simpa using h
      have hft : strTruthy c.pageContent = false := by
        rw [hpc]
        rfl
      constructor
      · simp [Routes.summarize_page, hc, hft]
      · simp [Routes.analyze_page, hc, hft]

/-- C8 witness: a request with no context is rejected by both endpoints. -/
theorem c8_page_content_required_witness :
    ((⟨"sum this", none, none, none⟩ : AIRequest).context.bind (fun c => c.pageContent) = none)
    ∧ Routes.summarize_page envOk ⟨"sum this", none, none, none⟩
        = Routes.PageEndpointResult.badRequest "Page content is required for summarization"
    ∧ Routes.analyze_page envOk ⟨"sum this", none, none, none⟩
        = Routes.PageEndpointResult.badRequest "Page content is required for analysis" :=
  ⟨rfl,
   (c8_page_content_required envOk ⟨"sum this", none, none, none⟩ rfl).1,
   (c8_page_content_required envOk ⟨"sum this", none, none, none⟩ rfl).2⟩

end Vynce
